import Mathlib

/-!
Verification development for the solar-design-system repository's
performance & economic simulation core.

The embedded functions mirror the TypeScript source:
* `frontend/src/components/simulation/SimulationResults.tsx`
  (`calculateMonthlyProduction`, `calculatePerformanceMetrics`, and the
  `SimulationResults` component body),
* the `EconomicAnalysis` component (`calculateCosts`, `generateROIData`,
  payback computation),
* the `Dashboard` page (`calculateSystemSize`, orchestration of the above,
  `location?.latitude || -33.4489` default).

JavaScript numbers are modelled as exact rationals (for the economic and
aggregation code, whose arithmetic is rational) and as real numbers (for the
yield code, which uses `Math.cos`/`Math.PI`).  `Math.round` is modelled as
`⌊x + 1/2⌋`.  A JavaScript division whose divisor is 0 produces a non-finite
value (`NaN`/`Infinity`), never 0; this is modelled by `Option`, `none`
standing for the non-finite outcome.
-/

namespace Solar

/-- Component categories, from the TypeScript union type
`'panel' | 'inverter' | 'battery'` in `types/project.ts`. -/
inductive CompType : Type
  | panel : CompType
  | inverter : CompType
  | battery : CompType
deriving DecidableEq

/-- A selected catalog component.  The source's `Component` interface carries
`id`, `manufacturer`, `model` and a string-keyed `specifications` map; only the
`type` field is read by the simulation code.  The nominal-power entry of the
specifications map is retained here (as watts, `none` when absent) because the
spec's aggregator contract refers to it. -/
structure Component : Type where
  type : CompType
  nominalPowerW : Option ℚ
deriving DecidableEq

/-- 3-D bounding dimensions of an obstacle (`types/project.ts`). -/
structure Dimensions : Type where
  width : ℚ
  height : ℚ
  depth : ℚ
deriving DecidableEq

/-- 3-D position of an obstacle (`types/project.ts`). -/
structure Position3 : Type where
  x : ℚ
  y : ℚ
  z : ℚ
deriving DecidableEq

/-- A shading obstacle (`types/project.ts`).  The simulation code never reads
obstacles. -/
structure Obstacle : Type where
  type : String
  dimensions : Dimensions
  position : Position3
deriving DecidableEq

/-- Site constraints (`SystemConstraints` in `types/project.ts`). -/
structure SystemConstraints : Type where
  availableArea : ℚ
  roofType : String
  orientation : ℚ
  tilt : ℚ
  obstacles : List Obstacle
deriving DecidableEq

/-- A geographic location (`Location` in `types/project.ts`; the `address`
field is never read by the simulation code). -/
structure Location : Type where
  latitude : ℚ
  longitude : ℚ
deriving DecidableEq

/-- Per-component-type unit cost, from the literal `costs` object inside
`calculateCosts`: panel 300 USD, inverter 1000 USD, battery 7000 USD. -/
def compCost : CompType → ℚ
  | CompType.panel => 300
  | CompType.inverter => 1000
  | CompType.battery => 7000

/-- `components.reduce((acc, c) => acc + costs[c.type], 0)` from
`calculateCosts`. -/
def totalComponentCost (comps : List Component) : ℚ :=
  comps.foldl (fun acc c => acc + compCost c.type) 0

/-- JavaScript division on rationals: `none` models the non-finite result
(`NaN` or `Infinity`) produced when the divisor is 0. -/
def jsDivQ (a b : ℚ) : Option ℚ :=
  if b = 0 then none else some (a / b)

/-- One row of the cost-breakdown table (`CostBreakdown` interface in the
`EconomicAnalysis` component). -/
structure CostBreakdown : Type where
  category : String
  cost : ℚ
  percentage : Option ℚ
deriving DecidableEq

/-- `calculateCosts` from the `EconomicAnalysis` component: component cost from
the unit-cost table, installation 30% and design 10% of the component cost,
each percentage computed independently as `cost / total * 100`. -/
def calculateCosts (comps : List Component) : List CostBreakdown :=
  let totalComponent := totalComponentCost comps
  let installationCost := totalComponent * 0.3
  let designCost := totalComponent * 0.1
  let total := totalComponent + installationCost + designCost
  [ ⟨"Componentes", totalComponent, (jsDivQ totalComponent total).map (fun r => r * 100)⟩,
    ⟨"Instalación", installationCost, (jsDivQ installationCost total).map (fun r => r * 100)⟩,
    ⟨"Diseño e Ingeniería", designCost, (jsDivQ designCost total).map (fun r => r * 100)⟩ ]

/-- One entry of the ROI series produced by `generateROIData`. -/
structure ROIEntry : Type where
  year : ℕ
  balance : ℚ
  production : ℚ
deriving DecidableEq

/-- The cash-flow balance of year `y`: `-totalCost + yearlyRevenue * year`
with `yearlyRevenue = (systemSize * 1600) * 0.15`, exactly the expression
built inside `generateROIData`. -/
def bal (totalCost systemSize : ℚ) (y : ℕ) : ℚ :=
  -totalCost + systemSize * 1600 * 0.15 * y

/-- `generateROIData` from the `EconomicAnalysis` component:
`Array.from({length: 26}, (_, year) => ({year, balance, production}))` with
`yearlyProduction = systemSize * 1600` and `electricityPrice = 0.15`. -/
def generateROIData (totalCost systemSize : ℚ) : List ROIEntry :=
  (List.range 26).map fun year =>
    ⟨year, -totalCost + systemSize * 1600 * 0.15 * year, systemSize * 1600⟩

/-- `roiData.find(data => data.balance > 0)?.year || 0` from the
`EconomicAnalysis` component body.  When `find` misses, the optional chain
yields `undefined` and `|| 0` turns it into `0`; a found year of `0` is also
mapped to `0` by `|| 0`, so the composite equals `getD 0`. -/
def paybackYearOf (roiData : List ROIEntry) : ℕ :=
  ((roiData.find? fun e => decide (e.balance > 0)).map ROIEntry.year).getD 0

/-- `calculateSystemSize` from the Dashboard page:
`panels.length * 0.360` (every panel assumed to be 360 W); the identical
expression also appears inline in the `SimulationResults` component. -/
def calculateSystemSize (comps : List Component) : ℚ :=
  ((comps.filter fun c => c.type == CompType.panel).length : ℚ) * 0.360

/-- The spec's aggregator contract, stated for comparison with
`calculateSystemSize`: the sum over panel components of their nominal power
converted from watts to kilowatts, a missing nominal power contributing 0. -/
def specSystemSizeKW (comps : List Component) : ℚ :=
  ((comps.filter fun c => c.type == CompType.panel).map
    fun c => (c.nominalPowerW.getD 0) / 1000).sum

/-- `Math.round`, JavaScript semantics: round half toward positive infinity,
i.e. `⌊x + 1/2⌋`. -/
noncomputable def jsRound (x : ℝ) : ℤ :=
  ⌊x + 1 / 2⌋

open Classical in
/-- JavaScript division on reals; `none` models the non-finite result
(`NaN` or `Infinity`) produced when the divisor is 0. -/
noncomputable def jsDivR (a b : ℝ) : Option ℝ :=
  if b = 0 then none else some (a / b)

/-- One entry of the monthly production series
(`{ month: string; production: number }` in `SimulationResults.tsx`). -/
structure MonthEntry : Type where
  month : String
  production : ℤ

/-- The `baseProduction` table literal inside `calculateMonthlyProduction`:
month label and monthly base production factor (kWh/kWp). -/
noncomputable def baseProduction : List (String × ℝ) :=
  [ ("Ene", 5.2), ("Feb", 4.8), ("Mar", 4.5), ("Abr", 3.8),
    ("May", 3.0), ("Jun", 2.5), ("Jul", 2.7), ("Ago", 3.3),
    ("Sep", 4.0), ("Oct", 4.7), ("Nov", 5.0), ("Dic", 5.3) ]

/-- The tilt/latitude correction inside `calculateMonthlyProduction`:
`Math.cos((tilt - Math.abs(latitude)) * Math.PI / 180)`.  The source applies
no clamping or floor to this value. -/
noncomputable def tiltFactor (tilt latitude : ℝ) : ℝ :=
  Real.cos ((tilt - |latitude|) * Real.pi / 180)

/-- `calculateMonthlyProduction` from `SimulationResults.tsx`:
`Math.round(systemSize * month.factor * tiltFactor * 30)` for each of the
twelve base-table entries.  The day count is the constant 30 and no
shading-loss term appears. -/
noncomputable def calculateMonthlyProduction (systemSize tilt latitude : ℝ) :
    List MonthEntry :=
  baseProduction.map fun m =>
    ⟨m.1, jsRound (systemSize * m.2 * tiltFactor tilt latitude * 30)⟩

/-- The record returned by `calculatePerformanceMetrics`. -/
structure PerfMetrics : Type where
  annualProduction : ℤ
  specificYield : Option ℝ
  performanceRatio : ℝ
  co2Savings : ℝ

/-- `calculatePerformanceMetrics` from `SimulationResults.tsx`: annual
production by `reduce`, specific yield by an unguarded division
`annualProduction / systemSize`, the constant performance ratio `0.8`, and
CO2 savings `annualProduction * 0.5`. -/
noncomputable def calculatePerformanceMetrics (systemSize : ℝ)
    (monthly : List MonthEntry) : PerfMetrics :=
  let annual := monthly.foldl (fun acc m => acc + m.production) 0
  ⟨annual, jsDivR annual systemSize, 0.8, (annual : ℝ) * 0.5⟩

/-- `location?.latitude || -33.4489` from the `SimulationResults` component
body: a missing location falls back to the default latitude, and so does a
latitude of exactly `0`, because `0` is falsy in JavaScript. -/
def effLatitude (loc : Option Location) : ℚ :=
  match loc with
  | none => -33.4489
  | some l => if l.latitude = 0 then -33.4489 else l.latitude

/-- All values derived by the `SimulationResults` and `EconomicAnalysis`
components for one set of inputs. -/
structure SimOutput : Type where
  systemSize : ℚ
  monthly : List MonthEntry
  annualProduction : ℤ
  specificYield : Option ℝ
  performanceRatio : ℝ
  co2Savings : ℝ
  costBreakdown : List CostBreakdown
  totalCost : ℚ
  roiData : List ROIEntry
  paybackYear : ℕ

/-- The full simulation pass as orchestrated by the Dashboard page: system
size from the panel count, monthly production and performance metrics from
`SimulationResults`, cost breakdown, total cost, ROI series and payback year
from `EconomicAnalysis`.  Both pages compute the system size by the same
expression `panels.length * 0.360`. -/
noncomputable def simulate (comps : List Component)
    (constraints : SystemConstraints) (loc : Option Location) : SimOutput :=
  let systemSize := calculateSystemSize comps
  let monthly :=
    calculateMonthlyProduction (systemSize : ℝ) (constraints.tilt : ℝ)
      ((effLatitude loc : ℚ) : ℝ)
  let metrics := calculatePerformanceMetrics (systemSize : ℝ) monthly
  let breakdown := calculateCosts comps
  let totalCost := breakdown.foldl (fun acc b => acc + b.cost) 0
  let roiData := generateROIData totalCost systemSize
  ⟨systemSize, monthly, metrics.annualProduction, metrics.specificYield,
    metrics.performanceRatio, metrics.co2Savings, breakdown, totalCost,
    roiData, paybackYearOf roiData⟩

/-- Number of days of month `m` (January = 0), used by the spec's yield
formula. -/
def daysInMonth : Fin 12 → ℕ
  | ⟨0, _⟩ => 31
  | ⟨1, _⟩ => 28
  | ⟨2, _⟩ => 31
  | ⟨3, _⟩ => 30
  | ⟨4, _⟩ => 31
  | ⟨5, _⟩ => 30
  | ⟨6, _⟩ => 31
  | ⟨7, _⟩ => 31
  | ⟨8, _⟩ => 30
  | ⟨9, _⟩ => 31
  | ⟨10, _⟩ => 30
  | _ => 31

/-- The base production factor of month `m`, as a function of the month
index; agrees entrywise with the `baseProduction` table. -/
noncomputable def baseFactorAt : Fin 12 → ℝ
  | ⟨0, _⟩ => 5.2
  | ⟨1, _⟩ => 4.8
  | ⟨2, _⟩ => 4.5
  | ⟨3, _⟩ => 3.8
  | ⟨4, _⟩ => 3.0
  | ⟨5, _⟩ => 2.5
  | ⟨6, _⟩ => 2.7
  | ⟨7, _⟩ => 3.3
  | ⟨8, _⟩ => 4.0
  | ⟨9, _⟩ => 4.7
  | ⟨10, _⟩ => 5.0
  | _ => 5.3

/-- The month label of month `m`; agrees entrywise with the `baseProduction`
table. -/
def monthLabelAt : Fin 12 → String
  | ⟨0, _⟩ => "Ene"
  | ⟨1, _⟩ => "Feb"
  | ⟨2, _⟩ => "Mar"
  | ⟨3, _⟩ => "Abr"
  | ⟨4, _⟩ => "May"
  | ⟨5, _⟩ => "Jun"
  | ⟨6, _⟩ => "Jul"
  | ⟨7, _⟩ => "Ago"
  | ⟨8, _⟩ => "Sep"
  | ⟨9, _⟩ => "Oct"
  | ⟨10, _⟩ => "Nov"
  | _ => "Dic"

/-- The spec's monthly yield formula, stated for comparison with
`calculateMonthlyProduction`:
`systemSizeKW * baseFactor[month] * tiltFactor * daysInMonth *
(1 - monthlyShadingLoss[month] / 100)`. -/
noncomputable def specMonthlyProduction (systemSize tilt latitude : ℝ)
    (monthlyShadingLoss : Fin 12 → ℝ) (m : Fin 12) : ℝ :=
  systemSize * baseFactorAt m * tiltFactor tilt latitude * daysInMonth m *
    (1 - monthlyShadingLoss m / 100)

lemma jsRound_eq {x : ℝ} {n : ℤ} (h₁ : (n : ℝ) ≤ x + 1 / 2)
    (h₂ : x + 1 / 2 < n + 1) : jsRound x = n := by
  unfold jsRound
  exact Int.floor_eq_iff.mpr ⟨h₁, h₂⟩

lemma tiltFactor_self {l : ℝ} (h : 0 ≤ l) : tiltFactor l l = 1 := by
  unfold tiltFactor
  rw [abs_of_nonneg h, sub_self, zero_mul, zero_div, Real.cos_zero]

lemma find?_range_spec (q : ℕ → Bool) (n : ℕ) :
    ((List.range n).find? q = none → ∀ i, i < n → q i = false)
    ∧ (∀ b, (List.range n).find? q = some b →
        b < n ∧ q b = true ∧ ∀ j, j < b → q j = false) := by
  induction n with
  | zero =>
    refine ⟨fun _ i hi => absurd hi (Nat.not_lt_zero i), fun b hb => ?_⟩
    simp [List.range_zero] at hb
  | succ n ih =>
    rcases hfq : (List.range n).find? q with _ | c
    · have hall : ∀ i, i < n → q i = false := ih.1 hfq
      have key : (List.range (n + 1)).find? q = if q n then some n else none := by
        rw [List.range_succ, List.find?_append, hfq, Option.none_or,
          List.find?_singleton]
      refine ⟨fun hnone i hi => ?_, fun b hb => ?_⟩
      · rw [key] at hnone
        by_cases hq : q n = true
        · rw [if_pos hq] at hnone; cases hnone
        · rcases Nat.lt_succ_iff_lt_or_eq.mp hi with h | rfl
          · exact hall i h
          · exact Bool.eq_false_iff.mpr hq
      · rw [key] at hb
        by_cases hq : q n = true
        · rw [if_pos hq] at hb
          cases hb
          exact ⟨Nat.lt_succ_self n, hq, hall⟩
        · rw [if_neg hq] at hb; cases hb
    · have key : (List.range (n + 1)).find? q = some c := by
        rw [List.range_succ, List.find?_append, hfq, Option.or_some]
      refine ⟨fun hnone => ?_, fun b hb => ?_⟩
      · rw [key] at hnone; cases hnone
      · rw [key] at hb
        cases hb
        obtain ⟨hlt, hq, hmin⟩ := ih.2 c hfq
        exact ⟨Nat.lt_succ_of_lt hlt, hq, hmin⟩

lemma foldl_production_const {l : List MonthEntry}
    (h : ∀ e ∈ l, e.production = 0) :
    ∀ a : ℤ, l.foldl (fun acc m => acc + m.production) a = a := by
  induction l with
  | nil => intro a; rfl
  | cons e tl ih =>
    intro a
    have he : e.production = 0 := h e (List.mem_cons_self e tl)
    have htl : ∀ x ∈ tl, x.production = 0 := fun x hx =>
      h x (List.mem_cons_of_mem e hx)
    simp only [List.foldl_cons, he, add_zero]
    exact ih htl a

/-- A panel component rated 500 W, exercising the aggregator. -/
def panel500 : Component := ⟨CompType.panel, some 500⟩

/-- A selection of one 360 W panel and one inverter. -/
def demoComps : List Component :=
  [⟨CompType.panel, some 360⟩, ⟨CompType.inverter, none⟩]

/-- The Dashboard page's initial constraints: area 100, flat roof,
orientation 0, tilt 30, no obstacles. -/
def demoConstraints : SystemConstraints := ⟨100, "plano", 0, 30, []⟩

/-- A shading obstacle near the array. -/
def demoObstacle : Obstacle := ⟨"chimenea", ⟨1, 5, 1⟩, ⟨3, 0, 4⟩⟩

lemma systemSize_eq_spec_of_all360 (comps : List Component)
    (h : ∀ c ∈ comps, c.type = CompType.panel → c.nominalPowerW = some 360) :
    calculateSystemSize comps = specSystemSizeKW comps := by
  revert h
  induction comps with
  | nil => intro _; simp [calculateSystemSize, specSystemSizeKW]
  | cons c tl ih =>
    intro h
    have ihq := ih fun x hx hp => h x (List.mem_cons_of_mem c hx) hp
    by_cases hp : c.type = CompType.panel
    · have h360 : c.nominalPowerW = some 360 :=
        h c (List.mem_cons_self c tl) hp
      have hb : (c.type == CompType.panel) = true := by simp [hp]
      simp only [calculateSystemSize, specSystemSizeKW, List.filter_cons, hb,
        if_true, List.length_cons, List.map_cons, List.sum_cons, h360,
        Option.getD_some] at ihq ⊢
      push_cast
      linarith [ihq]
    · have hb : (c.type == CompType.panel) = false := by simp [hp]
      simp only [calculateSystemSize, specSystemSizeKW, List.filter_cons, hb,
        Bool.false_eq_true, if_false] at ihq ⊢
      exact ihq

/-- C3 (counterexample): a selection holding a single 500 W panel.  The code
computes `panels.length * 0.360 = 0.36` kW, whereas the sum of nominal panel
powers in kW is `0.5`; the two differ, so the computed system size is not the
sum of the panels' nameplate ratings. -/
theorem c3_counterexample :
    calculateSystemSize [panel500] = 0.36
    ∧ specSystemSizeKW [panel500] = 0.5
    ∧ (0.36 : ℚ) ≠ 0.5 := by
  refine ⟨?_, ?_, by norm_num⟩
  · simp [calculateSystemSize, panel500]
    norm_num
  · simp [specSystemSizeKW, panel500]
    norm_num

/-- C3 (amended): for every selection — whatever the panels' nominal power
ratings, which the code ignores — the computed system size is `0.36 kW`
times the number of components of type panel; an empty selection yields 0,
and the computation is total.  In particular the result agrees with the
spec's sum of nameplate ratings whenever every selected panel happens to be
rated 360 W. -/
theorem c3_system_size_from_panel_count (comps : List Component) :
    calculateSystemSize comps =
        ((comps.countP fun c => c.type == CompType.panel) : ℚ) * 0.36
    ∧ calculateSystemSize ([] : List Component) = 0
    ∧ ((∀ c ∈ comps, c.type = CompType.panel → c.nominalPowerW = some 360) →
        calculateSystemSize comps = specSystemSizeKW comps) := by
  refine ⟨?_, by simp [calculateSystemSize],
    systemSize_eq_spec_of_all360 comps⟩
  unfold calculateSystemSize
  rw [List.countP_eq_length_filter]
  norm_num

/-- C3 (witness): on a selection of one 500 W panel and a selection of one
360 W panel plus one inverter: the count formula holds for the 500 W panel
(whose rating is ignored), and the 360 W condition of the inner implication
is discharged on the second selection, where the spec's sum agrees. -/
theorem c3_witness :
    calculateSystemSize [panel500] =
        (([panel500].countP fun c => c.type == CompType.panel) : ℚ) * 0.36
    ∧ (∀ c ∈ demoComps, c.type = CompType.panel → c.nominalPowerW = some 360)
    ∧ calculateSystemSize demoComps = specSystemSizeKW demoComps := by
  have h360 : ∀ c ∈ demoComps, c.type = CompType.panel →
      c.nominalPowerW = some 360 := by decide
  exact ⟨(c3_system_size_from_panel_count [panel500]).1, h360,
    (c3_system_size_from_panel_count demoComps).2.2 h360⟩

/-- C8: for every input — any component selection, constraints (hence any
obstacle count) and location — the monthly production series has exactly 12
entries whose labels are the fixed Spanish month abbreviations
Ene..Dic in calendar order, pairwise distinct. -/
theorem c8_monthly_series_shape (comps : List Component)
    (constraints : SystemConstraints) (loc : Option Location) :
    (simulate comps constraints loc).monthly.length = 12
    ∧ (simulate comps constraints loc).monthly.map MonthEntry.month =
        ["Ene", "Feb", "Mar", "Abr", "May", "Jun", "Jul", "Ago", "Sep",
          "Oct", "Nov", "Dic"]
    ∧ List.Nodup ["Ene", "Feb", "Mar", "Abr", "May", "Jun", "Jul", "Ago",
        "Sep", "Oct", "Nov", "Dic"] :=
  ⟨rfl, rfl, by decide⟩

/-- C9: the simulation is a pure function of its read-only inputs: two runs
on identical component selections, constraints and locations return identical
results in every field.  The embedded code consults no mutable state and uses
no randomness, which this equality witnesses. -/
theorem c9_idempotent (c₁ c₂ : List Component) (s₁ s₂ : SystemConstraints)
    (l₁ l₂ : Option Location) (hc : c₁ = c₂) (hs : s₁ = s₂) (hl : l₁ = l₂) :
    simulate c₁ s₁ l₁ = simulate c₂ s₂ l₂ := by
  subst hc; subst hs; subst hl; rfl

/-- C9 (witness): two runs on the demo inputs coincide. -/
theorem c9_witness :
    simulate demoComps demoConstraints (some ⟨-33.4489, -70.6483⟩) =
      simulate demoComps demoConstraints (some ⟨-33.4489, -70.6483⟩) :=
  c9_idempotent _ _ _ _ _ _ rfl rfl rfl

/-- C10: two inputs that agree on the component selection, the location, the
available area, the roof type and the tilt — and may differ arbitrarily in
orientation and in the obstacle list — produce identical simulation outputs
in every field: orientation and obstacles influence nothing. -/
theorem c10_orientation_obstacles_unused (comps : List Component)
    (s₁ s₂ : SystemConstraints) (loc : Option Location)
    (hA : s₁.availableArea = s₂.availableArea)
    (hR : s₁.roofType = s₂.roofType)
    (hT : s₁.tilt = s₂.tilt) :
    simulate comps s₁ loc = simulate comps s₂ loc := by
  obtain ⟨a₁, r₁, o₁, t₁, ob₁⟩ := s₁
  obtain ⟨a₂, r₂, o₂, t₂, ob₂⟩ := s₂
  have ht : t₁ = t₂ := hT
  subst ht
  rfl

/-- C10 (witness): flipping the orientation from 0 to 180 degrees and adding
an obstacle leaves the whole simulation output unchanged. -/
theorem c10_witness :
    simulate demoComps ⟨100, "plano", 0, 30, []⟩ none =
      simulate demoComps ⟨100, "plano", 180, 30, [demoObstacle]⟩ none :=
  c10_orientation_obstacles_unused demoComps _ _ none rfl rfl rfl

/-- C5: for every total cost, and whenever the yearly production
`systemSize * 1600` is positive (the electricity price is the positive
constant 0.15), the ROI series lists, for each year `0 ≤ y ≤ 25`, the balance
`-totalCost + systemSize * 1600 * 0.15 * y`; that balance is strictly
increasing in the year; and when some year within the horizon has positive
balance, the reported payback year is the smallest such year. -/
theorem c5_cash_flow (t s : ℚ) (h : 0 < s * 1600) :
    (∀ y : ℕ, y < 26 →
        (generateROIData t s)[y]? = some ⟨y, bal t s y, s * 1600⟩)
    ∧ (∀ y₁ y₂ : ℕ, y₁ < y₂ → bal t s y₁ < bal t s y₂)
    ∧ (∀ y : ℕ, y < 26 → 0 < bal t s y →
        paybackYearOf (generateROIData t s) < 26
        ∧ 0 < bal t s (paybackYearOf (generateROIData t s))
        ∧ ∀ j : ℕ, j < paybackYearOf (generateROIData t s) →
            ¬ 0 < bal t s j) := by
  refine ⟨?_, ?_, ?_⟩
  · intro y hy
    unfold generateROIData bal
    rw [List.getElem?_map, List.getElem?_range hy]
    rfl
  · intro y₁ y₂ hlt
    unfold bal
    have hc : (0 : ℚ) < s * 1600 * 0.15 := mul_pos h (by norm_num)
    have hy : (y₁ : ℚ) < y₂ := by exact_mod_cast hlt
    have := mul_lt_mul_of_pos_left hy hc
    linarith
  · intro y hy hb
    have hfind : (generateROIData t s).find? (fun e => decide (e.balance > 0)) =
        ((List.range 26).find? fun i => decide (0 < bal t s i)).map
          (fun year => (⟨year, -t + s * 1600 * 0.15 * year, s * 1600⟩ : ROIEntry)) := by
      unfold generateROIData
      rw [List.find?_map]
      rfl
    have spec := find?_range_spec (fun i => decide (0 < bal t s i)) 26
    rcases hcase : (List.range 26).find? fun i => decide (0 < bal t s i)
      with _ | b
    · have : decide (0 < bal t s y) = false := spec.1 hcase y hy
      exact absurd hb (of_decide_eq_false this)
    · obtain ⟨hblt, hqb, hmin⟩ := spec.2 b hcase
      have hpy : paybackYearOf (generateROIData t s) = b := by
        unfold paybackYearOf
        rw [hfind, hcase]
        rfl
      rw [hpy]
      refine ⟨hblt, of_decide_eq_true hqb, fun j hj => ?_⟩
      exact of_decide_eq_false (hmin j hj)

/-- C5 (witness): the spec's example — total cost 14000 and annual production
6000 kWh (system size 3.75 kW, since 3.75 · 1600 = 6000) at price 0.15 — has
its payback inside the 26-year horizon with a positive balance there
(year 16 already satisfies −14000 + 900 · 16 = 400 > 0). -/
theorem c5_witness :
    (0 : ℚ) < 3.75 * 1600
    ∧ paybackYearOf (generateROIData 14000 3.75) < 26
    ∧ 0 < bal 14000 3.75 (paybackYearOf (generateROIData 14000 3.75)) := by
  have h : (0 : ℚ) < 3.75 * 1600 := by norm_num
  have hmain := (c5_cash_flow 14000 3.75 h).2.2 16 (by norm_num)
    (by norm_num [bal])
  exact ⟨h, hmain.1, hmain.2.1⟩

/-- C6 (counterexample): zero production (system size 0) with cost 14000
never reaches a positive balance inside the horizon, yet the reported
payback value is `0` — the `?.year || 0` fallback — not a −1/undefined
marker: `0` is itself a valid year index of the series. -/
theorem c6_counterexample :
    paybackYearOf (generateROIData 14000 0) = 0
    ∧ ∀ y : ℕ, y < 26 → ¬ 0 < bal 14000 0 y := by
  constructor
  · have hnone : (generateROIData 14000 0).find?
        (fun e => decide (e.balance > 0)) = none := by
      rw [List.find?_eq_none]
      intro x hx
      unfold generateROIData at hx
      rw [List.mem_map] at hx
      obtain ⟨y, hy, rfl⟩ := hx
      intro hc
      have := of_decide_eq_true hc
      norm_num at this
    unfold paybackYearOf
    rw [hnone]
    rfl
  · intro y _
    norm_num [bal]

/-- C6 (amended): when no year within the horizon has positive balance, the
code reports payback year `0` (JavaScript `undefined || 0`), which is not an
error but coincides with the valid year index 0 instead of being a
distinguished −1/undefined value. -/
theorem c6_no_payback_reported_as_zero (t s : ℚ)
    (h : ∀ y : ℕ, y < 26 → ¬ 0 < bal t s y) :
    paybackYearOf (generateROIData t s) = 0 := by
  have hnone :
      (generateROIData t s).find? (fun e => decide (e.balance > 0)) = none := by
    rw [List.find?_eq_none]
    intro x hx
    unfold generateROIData at hx
    rw [List.mem_map] at hx
    obtain ⟨y, hy, rfl⟩ := hx
    rw [List.mem_range] at hy
    exact fun hc => h y hy (of_decide_eq_true hc)
  unfold paybackYearOf
  rw [hnone]
  rfl

/-- C6 (witness): instantiating the amended claim at total cost 14000 and
system size 0 (zero production, nonzero cost). -/
theorem c6_witness :
    (∀ y : ℕ, y < 26 → ¬ 0 < bal 14000 0 y)
    ∧ paybackYearOf (generateROIData 14000 0) = 0 :=
  ⟨fun y _ => by norm_num [bal],
    c6_no_payback_reported_as_zero 14000 0 fun y _ => by norm_num [bal]⟩

/-- C7: for every selection with positive total cost, the three breakdown
percentages are finite, sum to exactly 100 (hence within the 10⁻⁶
tolerance), and the design percentage equals the complement of the other
two.  In the code each percentage is computed independently as
`cost / total * 100`; over exact arithmetic the complement identity and the
100% sum nevertheless hold. -/
theorem c7_percentages_sum_100 (comps : List Component)
    (h : 0 < totalComponentCost comps) :
    ∃ p₁ p₂ p₃ : ℚ,
      (calculateCosts comps).map CostBreakdown.percentage =
        [some p₁, some p₂, some p₃]
      ∧ p₁ + p₂ + p₃ = 100
      ∧ p₃ = 100 - p₁ - p₂
      ∧ |p₁ + p₂ + p₃ - 100| < 1 / 1000000 := by
  set tc := totalComponentCost comps with htc
  set T : ℚ := tc + tc * 0.3 + tc * 0.1 with hT
  have hTpos : 0 < T := by rw [hT]; linarith
  have hTne : T ≠ 0 := ne_of_gt hTpos
  have hsum : tc / T * 100 + tc * 0.3 / T * 100 + tc * 0.1 / T * 100 = 100 := by
    field_simp
    ring
  refine ⟨tc / T * 100, tc * 0.3 / T * 100, tc * 0.1 / T * 100, ?_, hsum,
    by linarith, by rw [hsum]; norm_num⟩
  simp [calculateCosts, jsDivQ, hTne, ← htc, ← hT]

/-- C7 (witness): the percentages for a selection of one panel and one
inverter (component cost 1300 > 0). -/
theorem c7_witness :
    0 < totalComponentCost demoComps
    ∧ ∃ p₁ p₂ p₃ : ℚ,
        (calculateCosts demoComps).map CostBreakdown.percentage =
          [some p₁, some p₂, some p₃]
        ∧ p₁ + p₂ + p₃ = 100
        ∧ p₃ = 100 - p₁ - p₂
        ∧ |p₁ + p₂ + p₃ - 100| < 1 / 1000000 := by
  have h : 0 < totalComponentCost demoComps := by
    norm_num [totalComponentCost, demoComps, compCost]
  exact ⟨h, c7_percentages_sum_100 demoComps h⟩

lemma monthly_production_zero (tilt latitude : ℝ) :
    ∀ e ∈ calculateMonthlyProduction 0 tilt latitude, e.production = 0 := by
  intro e he
  unfold calculateMonthlyProduction at he
  rw [List.mem_map] at he
  obtain ⟨m, _, rfl⟩ := he
  show jsRound (0 * m.2 * tiltFactor tilt latitude * 30) = 0
  have hz : (0 : ℝ) * m.2 * tiltFactor tilt latitude * 30 = 0 := by ring
  rw [hz]
  apply jsRound_eq <;> norm_num

/-- C1 (counterexample): a 1 kW system with tilt = latitude = 0 (tilt factor
exactly 1) and zero shading.  For January the code returns
`round(1 · 5.2 · 1 · 30) = 156` kWh, while the claimed formula with
`daysInMonth(January) = 31` gives `1 · 5.2 · 1 · 31 · (1 − 0/100) = 161.2`;
the code uses the constant 30 for every month and no shading term, so the
claimed identity fails. -/
theorem c1_counterexample :
    (calculateMonthlyProduction 1 0 0)[0]? = some ⟨"Ene", 156⟩
    ∧ specMonthlyProduction 1 0 0 (fun _ => 0) 0 = 161.2
    ∧ ((156 : ℤ) : ℝ) ≠ 161.2 := by
  have ht : tiltFactor (0 : ℝ) 0 = 1 := tiltFactor_self le_rfl
  refine ⟨?_, ?_, by norm_num⟩
  · simp only [calculateMonthlyProduction, baseProduction, List.map_cons,
      List.getElem?_cons_zero, Option.some.injEq, MonthEntry.mk.injEq,
      true_and]
    rw [ht]
    apply jsRound_eq <;> norm_num
  · have hb : baseFactorAt 0 = 5.2 := rfl
    have hd : daysInMonth 0 = 31 := rfl
    unfold specMonthlyProduction
    rw [ht, hb, hd]
    norm_num

/-- C1 (amended): for every system size, tilt and latitude, the production of
month `m` is `round(systemSizeKW * baseFactor[m] * tiltFactor * 30)` — the
day count is the constant 30 for every month and no shading-loss factor is
applied; in particular the worked example holds: a 4 kW system with
baseFactor 4.5 (March) and tilt = latitude gives
`round(4 · 4.5 · 1 · 30) = 540` kWh. -/
theorem c1_monthly_production_formula :
    (∀ systemSize tilt latitude : ℝ,
        calculateMonthlyProduction systemSize tilt latitude =
          (List.finRange 12).map fun m =>
            ⟨monthLabelAt m,
              jsRound (systemSize * baseFactorAt m *
                tiltFactor tilt latitude * 30)⟩)
    ∧ (calculateMonthlyProduction 4 30 30)[2]? = some ⟨"Mar", 540⟩ := by
  constructor
  · intro s t l
    rfl
  · have ht : tiltFactor (30 : ℝ) 30 = 1 := tiltFactor_self (by norm_num)
    simp only [calculateMonthlyProduction, baseProduction, List.map_cons,
      List.getElem?_cons_succ, List.getElem?_cons_zero, Option.some.injEq,
      MonthEntry.mk.injEq, true_and]
    rw [ht]
    apply jsRound_eq <;> norm_num

/-- C2 (counterexample): with an empty selection (zero panels, so
`systemSizeKW = 0`), the specific yield is not 0: the code performs the
division `annualProduction / systemSize = 0 / 0`, whose JavaScript value is
`NaN` (modelled `none`), and the performance ratio is the constant `0.8`,
not 0. -/
theorem c2_counterexample :
    (simulate [] demoConstraints none).specificYield = none
    ∧ (simulate [] demoConstraints none).performanceRatio = 0.8
    ∧ (0.8 : ℝ) ≠ 0 := by
  refine ⟨?_, rfl, by norm_num⟩
  simp [simulate, calculateSystemSize, calculatePerformanceMetrics, jsDivR]

/-- C2 (amended): whenever the selection contains no panel, the system size
is 0 and the monthly productions, the annual production and the CO2 savings
are all 0; but the specific yield is computed by the unguarded division
`0 / 0` and is NaN (`none`), not 0, and the performance ratio stays the
constant 0.8. -/
theorem c2_zero_system_size (comps : List Component)
    (constraints : SystemConstraints) (loc : Option Location)
    (h : comps.filter (fun c => c.type == CompType.panel) = []) :
    (simulate comps constraints loc).systemSize = 0
    ∧ (∀ e ∈ (simulate comps constraints loc).monthly, e.production = 0)
    ∧ (simulate comps constraints loc).annualProduction = 0
    ∧ (simulate comps constraints loc).co2Savings = 0
    ∧ (simulate comps constraints loc).specificYield = none
    ∧ (simulate comps constraints loc).performanceRatio = 0.8 := by
  have hsz : calculateSystemSize comps = 0 := by
    simp [calculateSystemSize, h]
  refine ⟨by simp [simulate, hsz], ?_, ?_, ?_, ?_, by simp [simulate,
    calculatePerformanceMetrics]⟩
  · intro e he
    simp only [simulate, hsz, Rat.cast_zero] at he
    exact monthly_production_zero _ _ e he
  · simp only [simulate, hsz, Rat.cast_zero, calculatePerformanceMetrics]
    exact foldl_production_const (monthly_production_zero _ _) 0
  · have hann := foldl_production_const
      (monthly_production_zero ((constraints.tilt : ℚ) : ℝ)
        ((effLatitude loc : ℚ) : ℝ)) 0
    simp only [simulate, hsz, Rat.cast_zero, calculatePerformanceMetrics,
      hann]
    norm_num
  · simp [simulate, hsz, calculatePerformanceMetrics, jsDivR]

/-- C2 (witness): a selection holding a single inverter has no panel, and
the amended claim instantiates there (annual production 0 shown). -/
theorem c2_witness :
    ([⟨CompType.inverter, none⟩] : List Component).filter
        (fun c => c.type == CompType.panel) = []
    ∧ (simulate [⟨CompType.inverter, none⟩] demoConstraints
        none).annualProduction = 0 := by
  have h : ([⟨CompType.inverter, none⟩] : List Component).filter
      (fun c => c.type == CompType.panel) = [] := rfl
  exact ⟨h, (c2_zero_system_size _ demoConstraints none h).2.2.1⟩

/-- C4 (counterexample): at tilt 0 and latitude 180 the raw cosine is
`cos(−π) = −1`; the code applies no floor, so the effective tilt factor is
−1 — negative — and a 1 kW system gets the negative January production
`round(1 · 5.2 · (−1) · 30) = −156`, refuting the claimed positive floor. -/
theorem c4_counterexample :
    tiltFactor 0 180 = -1
    ∧ tiltFactor 0 180 < 0
    ∧ (calculateMonthlyProduction 1 0 180)[0]? = some ⟨"Ene", -156⟩ := by
  have harg : ((0 : ℝ) - |(180 : ℝ)|) * Real.pi / 180 = -Real.pi := by
    rw [abs_of_nonneg (by norm_num : (0 : ℝ) ≤ 180)]
    ring
  have ht : tiltFactor 0 180 = -1 := by
    unfold tiltFactor
    rw [harg, Real.cos_neg, Real.cos_pi]
  refine ⟨ht, by rw [ht]; norm_num, ?_⟩
  simp only [calculateMonthlyProduction, baseProduction, List.map_cons,
    List.getElem?_cons_zero, Option.some.injEq, MonthEntry.mk.injEq,
    true_and]
  rw [ht]
  apply jsRound_eq <;> norm_num

/-- C4 (amended): the code applies no clamping: the effective tilt factor is
exactly `cos((tilt − |latitude|) · π/180)`, which can be zero or negative
(see the counterexample).  On the documented input domain — tilt in [0, 90]
and |latitude| ≤ 90 — the factor is nonnegative, because the cosine argument
then lies in [−π/2, π/2]. -/
theorem c4_tilt_factor_cos_nonneg (tilt latitude : ℝ)
    (h₀ : 0 ≤ tilt) (h₉₀ : tilt ≤ 90) (hlat : |latitude| ≤ 90) :
    0 ≤ tiltFactor tilt latitude := by
  unfold tiltFactor
  apply Real.cos_nonneg_of_mem_Icc
  have hπ : (0 : ℝ) ≤ Real.pi := le_of_lt Real.pi_pos
  have habs : (0 : ℝ) ≤ |latitude| := abs_nonneg latitude
  have hlow : (-90 : ℝ) ≤ tilt - |latitude| := by linarith
  have hhigh : tilt - |latitude| ≤ 90 := by linarith
  have h₁ : (-90 : ℝ) * Real.pi ≤ (tilt - |latitude|) * Real.pi :=
    mul_le_mul_of_nonneg_right hlow hπ
  have h₂ : (tilt - |latitude|) * Real.pi ≤ 90 * Real.pi :=
    mul_le_mul_of_nonneg_right hhigh hπ
  exact Set.mem_Icc.mpr ⟨by linarith, by linarith⟩

/-- C4 (witness): tilt 30° at latitude −33° satisfies the domain bounds and
gets a nonnegative tilt factor. -/
theorem c4_witness :
    (0 : ℝ) ≤ 30 ∧ (30 : ℝ) ≤ 90 ∧ |(-33 : ℝ)| ≤ 90
    ∧ 0 ≤ tiltFactor 30 (-33) :=
  ⟨by norm_num, by norm_num, by norm_num,
    c4_tilt_factor_cos_nonneg 30 (-33) (by norm_num) (by norm_num)
      (by norm_num)⟩

end Solar
